import Mathlib

/-!
Shallow embedding of the nexus7 core (TypeScript) for specification checking.

JavaScript numbers are embedded as `ℚ` (all arithmetic appearing in the
modelled code — additions, subtractions, multiplication by constants and
division by 100 — is exact on the decimal values involved, so `ℚ` and IEEE
doubles agree on every comparison these claims depend on).  `Date`
timestamps are embedded as `ℤ` milliseconds; the ambient `Date.now()` is an
explicit `now` parameter.  JS `Map`s are embedded as functions
`String → Option β` (absent key ↦ `none`); where every read of a map goes
through `|| default`, the map is embedded as a total function with that
default.  Class instances become structures, methods become functions from
the structure to an updated structure plus the return value.
-/

/-! ### FlowController (packages/neural-mesh/src/flow-control/FlowController.ts) -/

/-- Flow control configuration: `maxBufferSize` in bytes, the two watermarks
in percent (0-100). -/
structure FlowControlConfig where
  maxBufferSize : ℚ
  highWaterMark : ℚ
  lowWaterMark : ℚ
deriving Repr, DecidableEq

/-- Mutable state of a `FlowController` instance: the buffered-byte counter,
the pause flag, and the configuration fixed at construction. -/
structure FlowController where
  bufferSize : ℚ
  paused : Bool
  config : FlowControlConfig
deriving Repr, DecidableEq

/-- Constructor `new FlowController(config)` with all fields supplied (the constructor
defaults are 10 MiB / 80 / 20). -/
def FlowController.mk' (config : FlowControlConfig) : FlowController :=
  { bufferSize := 0, paused := false, config }

/-- The high-water threshold `maxBufferSize * highWaterMark / 100`. -/
def FlowController.highLimit (c : FlowControlConfig) : ℚ :=
  c.maxBufferSize * c.highWaterMark / 100

/-- The low-water threshold `maxBufferSize * lowWaterMark / 100`. -/
def FlowController.lowLimit (c : FlowControlConfig) : ℚ :=
  c.maxBufferSize * c.lowWaterMark / 100

/-- Method `write(dataSize)`: add to the counter; if not already paused and the
counter now exceeds the high-water threshold, flip to paused and return
`false` (backpressure); otherwise return `true`. -/
def FlowController.write (f : FlowController) (dataSize : ℚ) :
    FlowController × Bool :=
  let buf := f.bufferSize + dataSize
  if ¬ f.paused ∧ FlowController.highLimit f.config < buf then
    ({ f with bufferSize := buf, paused := true }, false)
  else
    ({ f with bufferSize := buf }, true)

/-- Method `drain(dataSize)`: subtract from the counter (floored at 0); if paused
and the counter has fallen strictly below the low-water threshold, flip to
resumed and return `true`; otherwise return the (unchanged) pause flag. -/
def FlowController.drain (f : FlowController) (dataSize : ℚ) :
    FlowController × Bool :=
  let buf := max 0 (f.bufferSize - dataSize)
  if f.paused ∧ buf < FlowController.lowLimit f.config then
    ({ f with bufferSize := buf, paused := false }, true)
  else
    ({ f with bufferSize := buf }, f.paused)

/-- Concrete configuration used by the C1 counterexample: capacity 100,
high watermark 80 %, low watermark 20 %. -/
def flowCfgEx : FlowControlConfig := ⟨100, 80, 20⟩

/-- C1 counterexample: with capacity 100 / high 80 / low 20, `write 90` on a
fresh controller pauses and returns false; the next `write 1` leaves the
counter at 91, which still exceeds the high-water threshold 80, yet `write`
returns `true` because the controller is already paused — so `write` does
not return false exactly when the counter exceeds the threshold.  Likewise
`drain 10` from the paused state leaves the counter at 80, at or above the
low watermark 20, yet returns `true` — so `drain` signals resume (true)
while still above the low watermark. -/
theorem flowController_C1_counterexample :
    ((((FlowController.mk' flowCfgEx).write 90).1.write 1).2 = true ∧
      FlowController.highLimit flowCfgEx <
        (((FlowController.mk' flowCfgEx).write 90).1.write 1).1.bufferSize) ∧
    ((((FlowController.mk' flowCfgEx).write 90).1.drain 10).2 = true ∧
      FlowController.lowLimit flowCfgEx ≤
        (((FlowController.mk' flowCfgEx).write 90).1.drain 10).1.bufferSize) := by
  norm_num [FlowController.mk', FlowController.write, FlowController.drain,
    FlowController.highLimit, FlowController.lowLimit, flowCfgEx]

/-- C1 (amended): for every controller state and size, `write` returns
`false` exactly when the controller was not already paused and the counter
after adding the size exceeds the high-water threshold; `drain` returns
`true` exactly when the controller was paused before the call (it returns
the pause flag, so it also returns `true` while still paused at or above
the low watermark); and the pause flag is cleared by `drain` exactly when
the counter has fallen strictly below the low-water threshold (so a
controller never resumes — never clears `paused` — at or above it). -/
theorem flowController_write_drain_characterization
    (f : FlowController) (n : ℚ) :
    ((f.write n).2 = false ↔
      (f.paused = false ∧
        FlowController.highLimit f.config < f.bufferSize + n)) ∧
    ((f.drain n).2 = true ↔ f.paused = true) ∧
    ((f.drain n).1.paused = false ↔
      (f.paused = false ∨
        max 0 (f.bufferSize - n) < FlowController.lowLimit f.config)) := by
  unfold FlowController.write FlowController.drain
  rcases hp : f.paused with _ | _ <;>
    simp [hp] <;> split <;> simp_all

/-! ### TaskRouter (packages/shared/src/types/index.ts, TaskRouter section)
and AgentRegistry (packages/agent-registry/src/registry/AgentRegistry.ts).

`AgentRegistry` stores agents in a JS `Map`, which iterates in insertion
order; `getAllAgents()` therefore returns the agents in registration order.
The registry is embedded as that ordered list. -/

/-- Agent health status (`'online' | 'offline' | 'degraded' | 'quarantined'`). -/
inductive AgentStatus
  | online | offline | degraded | quarantined
deriving Repr, DecidableEq

/-- Agent kind (`'llm' | 'tool' | 'service' | 'human'`). -/
inductive AgentType
  | llm | tool | service | human
deriving Repr, DecidableEq

/-- Agent capability.  The source also carries `inputSchema`/`outputSchema`
record bags; the router compares capabilities only by `name`, so the open
schema bags are not embedded. -/
structure AgentCapability where
  name : String
  version : String
  description : String
deriving Repr, DecidableEq

/-- Agent metadata as consumed by the router. -/
structure AgentMetadata where
  id : String
  name : String
  type : AgentType
  capabilities : List AgentCapability
  reputationScore : ℚ
  lastHeartbeat : ℤ
  status : AgentStatus
deriving Repr, DecidableEq

/-- The task metadata keys the router reads from the open `metadata` bag:
`requiredType` and `requiredCapability` (each possibly absent). -/
structure TaskMetadata where
  requiredType : Option AgentType
  requiredCapability : Option String
deriving Repr, DecidableEq

/-- Task fields used by the router (the full `Task` also carries status,
priority, dependencies, timestamps, etc., none of which the router reads). -/
structure NexusTask where
  id : String
  objective : String
  metadata : TaskMetadata
deriving Repr, DecidableEq

/-- Routing decision.  The source also formats a human-readable `reason`
string from the score; it carries no further information and is omitted. -/
structure RoutingDecision where
  taskId : String
  agentId : String
  confidence : ℚ
deriving Repr, DecidableEq

/-- First filter of `findCandidateAgents`: status online and reputation
strictly above 0.3. -/
def TaskRouter.isOnlineReputable (a : AgentMetadata) : Bool :=
  decide (a.status = AgentStatus.online) && decide ((0.3 : ℚ) < a.reputationScore)

/-- Method `findCandidateAgents(task)`: filter for online agents with reputation
above 0.3 (returning `[]` at once if none survive), then filter by the
task's required agent type and required capability when present. -/
def TaskRouter.findCandidateAgents (pool : List AgentMetadata) (task : NexusTask) :
    List AgentMetadata :=
  let candidates := pool.filter TaskRouter.isOnlineReputable
  if candidates.isEmpty then []
  else
    let candidates :=
      match task.metadata.requiredType with
      | some t => candidates.filter fun a => decide (a.type = t)
      | none => candidates
    match task.metadata.requiredCapability with
    | some c => candidates.filter fun a =>
        a.capabilities.any fun cap => decide (cap.name = c)
    | none => candidates

/-- Method `scoreAgent(agent, task)`: base 0.5, plus 0.4 × reputation, plus 0.3 on
capability match (or when no capability is required; a required capability
the agent lacks disqualifies with score 0), plus 0.2 when online, plus 0.1
when the last heartbeat is younger than 60 s, capped at 1. -/
def TaskRouter.scoreAgent (now : ℤ) (agent : AgentMetadata) (task : NexusTask) : ℚ :=
  let base : ℚ := 0.5 + agent.reputationScore * 0.4
  match task.metadata.requiredCapability with
  | some c =>
    if agent.capabilities.any fun cap => decide (cap.name = c) then
      finishScore now agent (base + 0.3)
    else 0
  | none => finishScore now agent (base + 0.3)
where
  /-- Status bonus, availability bonus and the `Math.min(1, score)` cap. -/
  finishScore (now : ℤ) (agent : AgentMetadata) (s : ℚ) : ℚ :=
    let s := if agent.status = AgentStatus.online then s + 0.2 else s
    let s := if now - agent.lastHeartbeat < 60000 then s + 0.1 else s
    min 1 s

/-- Head of the stable descending sort of scored candidates.  JS
`Array.prototype.sort` with comparator `(a, b) => b.score - a.score` is
stable (ES2019), so the head of the sorted array is the leftmost candidate
of maximal score: starting from the first element, a later element replaces
the current best only when its score is strictly greater. -/
def TaskRouter.selectTop (best : AgentMetadata × ℚ) :
    List (AgentMetadata × ℚ) → AgentMetadata × ℚ
  | [] => best
  | x :: xs => TaskRouter.selectTop (if best.2 < x.2 then x else best) xs

/-- Method `findBestAgent(task)`: null when no candidate survives filtering,
otherwise the maximal-scoring candidate (first registered on ties). -/
def TaskRouter.findBestAgent (now : ℤ) (pool : List AgentMetadata)
    (task : NexusTask) : Option RoutingDecision :=
  match (TaskRouter.findCandidateAgents pool task).map
      (fun a => (a, TaskRouter.scoreAgent now a task)) with
  | [] => none
  | x :: xs =>
    let best := TaskRouter.selectTop x xs
    some { taskId := task.id, agentId := best.1.id, confidence := best.2 }

/-- A task with no required type and no required capability. -/
def routerTask : NexusTask := { id := "t1", objective := "obj", metadata := ⟨none, none⟩ }

/-- Online agent `a05` with reputation 0.5; heartbeat fresh (age 0) or
stale (age 1 h) according to the flag. -/
def agentLowRep (fresh : Bool) : AgentMetadata :=
  { id := "a05", name := "low", type := AgentType.llm, capabilities := [],
    reputationScore := 0.5, lastHeartbeat := if fresh then 0 else -3600000,
    status := AgentStatus.online }

/-- Online agent `a09` with reputation 0.9; heartbeat freshness per flag. -/
def agentHighRep (fresh : Bool) : AgentMetadata :=
  { id := "a09", name := "high", type := AgentType.llm, capabilities := [],
    reputationScore := 0.9, lastHeartbeat := if fresh then 0 else -3600000,
    status := AgentStatus.online }

/-- C2 counterexample: with the 0.5-reputation agent registered first (both
online, fresh heartbeats, no capability requirement), `findBestAgent`
returns the 0.5 agent, not the 0.9 agent: both agents score
`min(1, ·) = 1`, and the stable sort keeps registration order on ties. -/
theorem findBestAgent_C2_counterexample :
    Option.map RoutingDecision.agentId
      (TaskRouter.findBestAgent 0 [agentLowRep true, agentHighRep true] routerTask) =
      some "a05" := by
  norm_num [TaskRouter.findBestAgent, TaskRouter.findCandidateAgents,
    TaskRouter.scoreAgent, TaskRouter.scoreAgent.finishScore,
    TaskRouter.selectTop, TaskRouter.isOnlineReputable,
    agentLowRep, agentHighRep, routerTask, List.filter]

/-- C2 (amended): with two online agents of reputations 0.5 and 0.9 and no
required type or capability, both agents reach the score cap
`min(1, ·) = 1`, so `findBestAgent` returns whichever of the two was
registered first, for every combination of heartbeat ages; in particular it
selects the 0.9 agent exactly when that agent was registered first. -/
theorem findBestAgent_two_agents_registration_order (f1 f2 : Bool) :
    Option.map RoutingDecision.agentId
      (TaskRouter.findBestAgent 0 [agentLowRep f1, agentHighRep f2] routerTask) =
      some "a05" ∧
    Option.map RoutingDecision.agentId
      (TaskRouter.findBestAgent 0 [agentHighRep f2, agentLowRep f1] routerTask) =
      some "a09" := by
  cases f1 <;> cases f2 <;>
    norm_num [TaskRouter.findBestAgent, TaskRouter.findCandidateAgents,
      TaskRouter.scoreAgent, TaskRouter.scoreAgent.finishScore,
      TaskRouter.selectTop, TaskRouter.isOnlineReputable,
      agentLowRep, agentHighRep, routerTask, List.filter]

/-- The result of `selectTop` is the seed or one of the scanned candidates. -/
theorem TaskRouter.selectTop_mem (best : AgentMetadata × ℚ)
    (l : List (AgentMetadata × ℚ)) :
    TaskRouter.selectTop best l ∈ best :: l := by
  induction l generalizing best with
  | nil => simp [TaskRouter.selectTop]
  | cons x xs ih =>
    have h := ih (if best.2 < x.2 then x else best)
    rw [TaskRouter.selectTop]
    rcases List.mem_cons.mp h with h | h
    · rw [h]; split <;> simp
    · simp [List.mem_cons_of_mem, h]

/-- Combined candidate filter of `findCandidateAgents`: online, reputation
above 0.3, and matching any required type / capability of the task. -/
def TaskRouter.eligible (task : NexusTask) (a : AgentMetadata) : Bool :=
  TaskRouter.isOnlineReputable a &&
  (match task.metadata.requiredType with
   | some t => decide (a.type = t)
   | none => true) &&
  (match task.metadata.requiredCapability with
   | some c => a.capabilities.any fun cap => decide (cap.name = c)
   | none => true)

/-- Membership: `findCandidateAgents` returns exactly the pool members passing all
three filters (the early return on an empty first filter does not change
the result). -/
theorem TaskRouter.mem_findCandidateAgents (pool : List AgentMetadata)
    (task : NexusTask) (a : AgentMetadata) :
    a ∈ TaskRouter.findCandidateAgents pool task ↔
      a ∈ pool ∧ TaskRouter.eligible task a = true := by
  unfold TaskRouter.findCandidateAgents TaskRouter.eligible
  simp only [List.isEmpty_iff]
  split_ifs with hE
  · have hnone := List.filter_eq_nil_iff.mp hE
    simp only [List.not_mem_nil, false_iff]
    rintro ⟨hmem, helig⟩
    simp only [Bool.and_eq_true] at helig
    exact hnone a hmem helig.1.1
  · rcases hT : task.metadata.requiredType with _ | t <;>
      rcases hC : task.metadata.requiredCapability with _ | c <;>
        simp [hT, hC, List.mem_filter, and_assoc] <;>
          intro _ <;> tauto

/-- C8: every decision `findBestAgent` returns names a pool agent that is
online with reputation strictly above 0.3; and when no pool agent passes
the filters (online, reputation above 0.3, required type/capability),
`findBestAgent` returns none. -/
theorem findBestAgent_only_eligible (now : ℤ) (pool : List AgentMetadata)
    (task : NexusTask) :
    (∀ d, TaskRouter.findBestAgent now pool task = some d →
      ∃ a, a ∈ pool ∧ a.id = d.agentId ∧ a.status = AgentStatus.online ∧
        (0.3 : ℚ) < a.reputationScore) ∧
    ((∀ a, a ∈ pool → TaskRouter.eligible task a = false) →
      TaskRouter.findBestAgent now pool task = none) := by
  constructor
  · intro d hd
    unfold TaskRouter.findBestAgent at hd
    rcases hm : (TaskRouter.findCandidateAgents pool task).map
        (fun a => (a, TaskRouter.scoreAgent now a task)) with _ | ⟨x, xs⟩
    · rw [hm] at hd; exact absurd hd (by simp)
    · rw [hm] at hd
      have hmem := TaskRouter.selectTop_mem x xs
      rw [← hm] at hmem
      obtain ⟨a, ha, h2⟩ := List.mem_map.mp hmem
      obtain ⟨hpool, helig⟩ := (TaskRouter.mem_findCandidateAgents pool task a).mp ha
      have hid : a.id = d.agentId := by
        have : (TaskRouter.selectTop x xs).1.id = d.agentId := by
          cases hd; rfl
        rw [← this, ← h2]
      have honline := ((Bool.and_eq_true _ _).mp
        ((Bool.and_eq_true _ _).mp helig).1).1
      simp only [TaskRouter.isOnlineReputable, Bool.and_eq_true,
        decide_eq_true_eq] at honline
      exact ⟨a, hpool, hid, honline.1, honline.2⟩
  · intro hall
    unfold TaskRouter.findBestAgent
    have hnil : TaskRouter.findCandidateAgents pool task = [] := by
      rw [List.eq_nil_iff_forall_not_mem]
      intro a ha
      obtain ⟨hpool, helig⟩ := (TaskRouter.mem_findCandidateAgents pool task a).mp ha
      rw [hall a hpool] at helig
      exact Bool.false_ne_true helig
    rw [hnil]
    rfl

/-- Witness for `findBestAgent_only_eligible`: with the single online
0.9-reputation agent registered, the returned decision (score capped at 1)
names that agent, which is online with reputation above 0.3; and on the
empty pool `findBestAgent` returns none. -/
theorem findBestAgent_only_eligible_witness :
    (∃ a, a ∈ [agentHighRep true] ∧ a.id = "a09" ∧
      a.status = AgentStatus.online ∧ (0.3 : ℚ) < a.reputationScore) ∧
    TaskRouter.findBestAgent 0 [] routerTask = none :=
  ⟨(findBestAgent_only_eligible 0 [agentHighRep true] routerTask).1
      ⟨"t1", "a09", 1⟩
      (by norm_num [TaskRouter.findBestAgent, TaskRouter.findCandidateAgents,
        TaskRouter.scoreAgent, TaskRouter.scoreAgent.finishScore,
        TaskRouter.selectTop, TaskRouter.isOnlineReputable,
        agentHighRep, routerTask, List.filter]),
   (findBestAgent_only_eligible 0 [] routerTask).2 (by simp)⟩

/-! ### Circuit breaker of ResilientOrchestrator
(packages/task-orchestrator, ResilientOrchestrator) -/

/-- Circuit breaker state (`'closed' | 'open' | 'half-open'`); `'open'` is
rendered `opened` (`open` is a Lean keyword). -/
inductive CircuitBreakerState
  | closed | opened | halfOpen
deriving Repr, DecidableEq

/-- The per-agent breaker and failure-count maps of a
`ResilientOrchestrator`.  Every read of the breaker map goes through
`|| 'closed'` and the counter map through `|| 0`, so both are embedded as
total functions with those defaults. -/
structure ResilientOrchestrator where
  circuitBreaker : String → CircuitBreakerState
  failureCount : String → ℕ

/-- Threshold `failureThreshold = 5`. -/
def ResilientOrchestrator.failureThreshold : ℕ := 5

/-- Timeout `resetTimeout = 60000` ms: the delay after which the timer scheduled at
breaker opening fires. -/
def ResilientOrchestrator.resetTimeout : ℕ := 60000

/-- Freshly constructed orchestrator: both maps empty. -/
def ResilientOrchestrator.init : ResilientOrchestrator :=
  { circuitBreaker := fun _ => CircuitBreakerState.closed,
    failureCount := fun _ => 0 }

/-- Method `recordAgentFailure(agentId)`: increment the failure counter; upon
reaching the threshold, open the breaker (and schedule the reset timer,
modelled as the separate `resetFires` event below). -/
def ResilientOrchestrator.recordAgentFailure (o : ResilientOrchestrator)
    (agentId : String) : ResilientOrchestrator :=
  let count := o.failureCount agentId + 1
  let o' := { o with failureCount := Function.update o.failureCount agentId count }
  if ResilientOrchestrator.failureThreshold ≤ count then
    { o' with circuitBreaker :=
        Function.update o'.circuitBreaker agentId CircuitBreakerState.opened }
  else o'

/-- The `setTimeout` callback scheduled when the breaker opens: after
`resetTimeout` ms it sets the agent's breaker to half-open and clears the
failure counter. -/
def ResilientOrchestrator.resetFires (o : ResilientOrchestrator)
    (agentId : String) : ResilientOrchestrator :=
  { circuitBreaker :=
      Function.update o.circuitBreaker agentId CircuitBreakerState.halfOpen,
    failureCount := Function.update o.failureCount agentId 0 }

/-- Method `recordAgentSuccess(agentId)`: clear the failure counter; if the
breaker is half-open, close it. -/
def ResilientOrchestrator.recordAgentSuccess (o : ResilientOrchestrator)
    (agentId : String) : ResilientOrchestrator :=
  let o' := { o with failureCount := Function.update o.failureCount agentId 0 }
  if o'.circuitBreaker agentId = CircuitBreakerState.halfOpen then
    { o' with circuitBreaker :=
        Function.update o'.circuitBreaker agentId CircuitBreakerState.closed }
  else o'

/-- Breaker events: an execution failure, an execution success, or the
firing of the scheduled reset timer for an agent.  Real traces only fire
the timer after the breaker opened; the invariants below hold even for
arbitrary event sequences, a superset of the real traces. -/
inductive CBEvent
  | failure (agentId : String)
  | success (agentId : String)
  | resetFires (agentId : String)

/-- One breaker event. -/
def ResilientOrchestrator.step (o : ResilientOrchestrator) :
    CBEvent → ResilientOrchestrator
  | CBEvent.failure id => o.recordAgentFailure id
  | CBEvent.success id => o.recordAgentSuccess id
  | CBEvent.resetFires id => o.resetFires id

/-- A sequence of breaker events. -/
def ResilientOrchestrator.run (o : ResilientOrchestrator)
    (es : List CBEvent) : ResilientOrchestrator :=
  es.foldl ResilientOrchestrator.step o

/-- C3: from the initial state, 5 consecutive `recordAgentFailure` calls
for an agent open its breaker; the reset timer firing then makes it
half-open; a single `recordAgentSuccess` recorded while half-open closes
it; and no single breaker event ever takes an agent's breaker directly
from open to closed (the closed state is never reached from open without
passing through half-open). -/
theorem circuitBreaker_open_halfOpen_closed (agentId : String)
    (o : ResilientOrchestrator) (e : CBEvent)
    (hopen : o.circuitBreaker agentId = CircuitBreakerState.opened) :
    ((ResilientOrchestrator.init.run
        (List.replicate 5 (CBEvent.failure agentId))).circuitBreaker agentId =
        CircuitBreakerState.opened ∧
      ((ResilientOrchestrator.init.run
        (List.replicate 5 (CBEvent.failure agentId))).resetFires
          agentId).circuitBreaker agentId = CircuitBreakerState.halfOpen ∧
      (((ResilientOrchestrator.init.run
        (List.replicate 5 (CBEvent.failure agentId))).resetFires
          agentId).recordAgentSuccess agentId).circuitBreaker agentId =
        CircuitBreakerState.closed) ∧
    (o.step e).circuitBreaker agentId ≠ CircuitBreakerState.closed := by
  refine ⟨⟨?_, ?_, ?_⟩, ?_⟩
  · simp [ResilientOrchestrator.run, ResilientOrchestrator.step,
      ResilientOrchestrator.recordAgentFailure, ResilientOrchestrator.init,
      ResilientOrchestrator.failureThreshold, List.replicate]
  · simp [ResilientOrchestrator.run, ResilientOrchestrator.step,
      ResilientOrchestrator.recordAgentFailure, ResilientOrchestrator.resetFires,
      ResilientOrchestrator.init, ResilientOrchestrator.failureThreshold,
      List.replicate]
  · simp [ResilientOrchestrator.run, ResilientOrchestrator.step,
      ResilientOrchestrator.recordAgentFailure, ResilientOrchestrator.resetFires,
      ResilientOrchestrator.recordAgentSuccess, ResilientOrchestrator.init,
      ResilientOrchestrator.failureThreshold, List.replicate]
  · cases e with
    | failure id' =>
      simp only [ResilientOrchestrator.step, ResilientOrchestrator.recordAgentFailure]
      split
      · simp only [Function.update_apply]
        split_ifs <;> simp_all
      · simp_all
    | success id' =>
      simp only [ResilientOrchestrator.step, ResilientOrchestrator.recordAgentSuccess]
      split
      · simp only [Function.update_apply]
        split_ifs with h1
        · subst h1; simp_all
        · simp_all
      · simp_all
    | resetFires id' =>
      simp only [ResilientOrchestrator.step, ResilientOrchestrator.resetFires]
      simp only [Function.update_apply]
      split_ifs <;> simp_all

/-- The orchestrator after five `recordAgentFailure("x")` calls from the
initial state. -/
def cbAfterFive : ResilientOrchestrator :=
  ResilientOrchestrator.init.run (List.replicate 5 (CBEvent.failure "x"))

/-- Witness for `circuitBreaker_open_halfOpen_closed`: agent `"x"`, the
state after five failures (whose breaker is open, discharging the
hypothesis), and a success event. -/
theorem circuitBreaker_open_halfOpen_closed_witness :
    ((ResilientOrchestrator.init.run
        (List.replicate 5 (CBEvent.failure "x"))).circuitBreaker "x" =
        CircuitBreakerState.opened ∧
      ((ResilientOrchestrator.init.run
        (List.replicate 5 (CBEvent.failure "x"))).resetFires
          "x").circuitBreaker "x" = CircuitBreakerState.halfOpen ∧
      (((ResilientOrchestrator.init.run
        (List.replicate 5 (CBEvent.failure "x"))).resetFires
          "x").recordAgentSuccess "x").circuitBreaker "x" =
        CircuitBreakerState.closed) ∧
    (cbAfterFive.step (CBEvent.success "x")).circuitBreaker "x" ≠
      CircuitBreakerState.closed :=
  circuitBreaker_open_halfOpen_closed "x" cbAfterFive (CBEvent.success "x")
    (by decide)

/-! ### ReputationTracker (agent-registry, reputation/ReputationTracker.ts)
with the deltas from packages/shared/src/constants/index.ts (DEFAULTS). -/

/-- Constant `DEFAULTS.REPUTATION_INCREMENT_SUCCESS`. -/
def DEFAULTS.REPUTATION_INCREMENT_SUCCESS : ℚ := 0.1

/-- Constant `DEFAULTS.REPUTATION_DECREMENT_FAILURE`. -/
def DEFAULTS.REPUTATION_DECREMENT_FAILURE : ℚ := 0.2

/-- Constant `DEFAULTS.REPUTATION_THRESHOLD_QUARANTINE`. -/
def DEFAULTS.REPUTATION_THRESHOLD_QUARANTINE : ℚ := 0.3

/-- Per-agent reputation record. -/
structure ReputationRecord where
  agentId : String
  score : ℚ
  successCount : ℕ
  failureCount : ℕ
  lastUpdated : ℤ
deriving Repr, DecidableEq

/-- The tracker's `reputation` map. -/
structure ReputationTracker where
  reputation : String → Option ReputationRecord

/-- Method `initializeAgent(agentId, initialScore = 1.0)`: create the record only
if absent, with the score clamped to `[0, 1]` by
`Math.max(0, Math.min(1, initialScore))`. -/
def ReputationTracker.initializeAgent (tr : ReputationTracker)
    (agentId : String) (initialScore : ℚ) (now : ℤ) : ReputationTracker :=
  match tr.reputation agentId with
  | some _ => tr
  | none =>
    { reputation := Function.update tr.reputation agentId (some
        { agentId, score := max 0 (min 1 initialScore),
          successCount := 0, failureCount := 0, lastUpdated := now }) }

/-- Method `recordSuccess(agentId)`: lazily create a default record
(`getOrCreateRecord` initializes with score 1.0), then increment
`successCount` and move the score to `min(1, score + 0.1)`. -/
def ReputationTracker.recordSuccess (tr : ReputationTracker)
    (agentId : String) (now : ℤ) : ReputationTracker :=
  let tr' := tr.initializeAgent agentId 1 now
  match tr'.reputation agentId with
  | none => tr'
  | some r =>
    { reputation := Function.update tr'.reputation agentId (some
        { r with successCount := r.successCount + 1,
                 score := min 1 (r.score + DEFAULTS.REPUTATION_INCREMENT_SUCCESS),
                 lastUpdated := now }) }

/-- Method `recordFailure(agentId)`: lazily create a default record, then
increment `failureCount` and move the score to `max(0, score - 0.2)`. -/
def ReputationTracker.recordFailure (tr : ReputationTracker)
    (agentId : String) (now : ℤ) : ReputationTracker :=
  let tr' := tr.initializeAgent agentId 1 now
  match tr'.reputation agentId with
  | none => tr'
  | some r =>
    { reputation := Function.update tr'.reputation agentId (some
        { r with failureCount := r.failureCount + 1,
                 score := max 0 (r.score - DEFAULTS.REPUTATION_DECREMENT_FAILURE),
                 lastUpdated := now }) }

/-- All scores stored in the tracker lie in `[0, 1]`. -/
def ReputationTracker.scoresInRange (tr : ReputationTracker) : Prop :=
  ∀ id r, tr.reputation id = some r → 0 ≤ r.score ∧ r.score ≤ 1

/-- Preservation: `initializeAgent` keeps every stored score in `[0, 1]`, for any
initial score. -/
theorem ReputationTracker.initializeAgent_scoresInRange
    (tr : ReputationTracker) (agentId : String) (s0 : ℚ) (now : ℤ)
    (h : tr.scoresInRange) :
    (tr.initializeAgent agentId s0 now).scoresInRange := by
  intro id r hr
  unfold ReputationTracker.initializeAgent at hr
  rcases he : tr.reputation agentId with _ | r0
  · rw [he] at hr
    simp only at hr
    rw [Function.update_apply] at hr
    split_ifs at hr with hid
    · cases hr
      constructor
      · exact le_max_left 0 _
      · exact max_le (by norm_num) (min_le_left 1 s0)
    · exact h id r hr
  · rw [he] at hr
    exact h id r hr

/-- C4: with a record stored for the agent, `recordSuccess` sets the score
to `min(1, score + 0.1)` and increments `successCount`; `recordFailure`
sets it to `max(0, score - 0.2)` and increments `failureCount`;
`initializeAgent` on an absent agent stores a score clamped to `[0, 1]`
for any initial score; and each of the three operations preserves the
invariant that every stored score lies in `[0, 1]`. -/
theorem reputationTracker_update_and_clamp (agentId : String) (s0 : ℚ)
    (now : ℤ) :
    (∀ (tr : ReputationTracker) (r : ReputationRecord),
      tr.reputation agentId = some r →
      (tr.recordSuccess agentId now).reputation agentId = some
        { r with successCount := r.successCount + 1,
                 score := min 1 (r.score + DEFAULTS.REPUTATION_INCREMENT_SUCCESS),
                 lastUpdated := now } ∧
      (tr.recordFailure agentId now).reputation agentId = some
        { r with failureCount := r.failureCount + 1,
                 score := max 0 (r.score - DEFAULTS.REPUTATION_DECREMENT_FAILURE),
                 lastUpdated := now }) ∧
    (∀ tr : ReputationTracker, tr.reputation agentId = none →
      ∃ rec, (tr.initializeAgent agentId s0 now).reputation agentId = some rec ∧
        rec.score = max 0 (min 1 s0) ∧ 0 ≤ rec.score ∧ rec.score ≤ 1) ∧
    (∀ tr : ReputationTracker, tr.scoresInRange →
      (tr.initializeAgent agentId s0 now).scoresInRange ∧
      (tr.recordSuccess agentId now).scoresInRange ∧
      (tr.recordFailure agentId now).scoresInRange) := by
  refine ⟨?_, ?_, ?_⟩
  · intro tr r hr
    constructor
    · simp [ReputationTracker.recordSuccess, ReputationTracker.initializeAgent,
        hr, Function.update_same]
    · simp [ReputationTracker.recordFailure, ReputationTracker.initializeAgent,
        hr, Function.update_same]
  · intro tr htr
    refine ⟨{ agentId, score := max 0 (min 1 s0), successCount := 0,
              failureCount := 0, lastUpdated := now }, ?_, rfl,
      le_max_left 0 _, max_le (by norm_num) (min_le_left 1 s0)⟩
    simp [ReputationTracker.initializeAgent, htr, Function.update_same]
  · intro tr h
    have h1 := ReputationTracker.initializeAgent_scoresInRange tr agentId 1 now h
    refine ⟨ReputationTracker.initializeAgent_scoresInRange tr agentId s0 now h,
      ?_, ?_⟩
    · intro id r hr
      simp only [ReputationTracker.recordSuccess] at hr
      rcases he : (tr.initializeAgent agentId 1 now).reputation agentId with _ | r0
      · rw [he] at hr; exact h1 id r hr
      · rw [he] at hr
        simp only [Function.update_apply] at hr
        split_ifs at hr with hid
        · cases hr
          have hb := h1 agentId r0 he
          constructor
          · refine le_min (by norm_num) ?_
            have := hb.1
            simp only [DEFAULTS.REPUTATION_INCREMENT_SUCCESS]
            linarith
          · exact min_le_left 1 _
        · exact h1 id r hr
    · intro id r hr
      simp only [ReputationTracker.recordFailure] at hr
      rcases he : (tr.initializeAgent agentId 1 now).reputation agentId with _ | r0
      · rw [he] at hr; exact h1 id r hr
      · rw [he] at hr
        simp only [Function.update_apply] at hr
        split_ifs at hr with hid
        · cases hr
          have hb := h1 agentId r0 he
          constructor
          · exact le_max_left 0 _
          · refine max_le (by norm_num) ?_
            have := hb.2
            simp only [DEFAULTS.REPUTATION_DECREMENT_FAILURE]
            linarith
        · exact h1 id r hr

/-- Reputation record with score 0.5 used by the C4 witness. -/
def repRecEx : ReputationRecord :=
  { agentId := "a", score := 0.5, successCount := 2, failureCount := 3,
    lastUpdated := 0 }

/-- Tracker holding exactly `repRecEx` under `"a"`. -/
def repTrackerEx : ReputationTracker :=
  ⟨fun id => if id = "a" then some repRecEx else none⟩

/-- Tracker with no records. -/
def repTrackerEmpty : ReputationTracker := ⟨fun _ => none⟩

/-- Witness for `reputationTracker_update_and_clamp`: agent `"a"`, initial
score 1.2 (outside `[0, 1]`), a tracker holding a 0.5-score record (update
equations apply), the empty tracker (clamped initialization applies), and
the empty tracker again (trivially in range) for the preservation part. -/
theorem reputationTracker_update_and_clamp_witness :
    ((repTrackerEx.recordSuccess "a" 7).reputation "a" = some
        { repRecEx with
          successCount := repRecEx.successCount + 1,
          score := min 1 (repRecEx.score + DEFAULTS.REPUTATION_INCREMENT_SUCCESS),
          lastUpdated := 7 } ∧
      (repTrackerEx.recordFailure "a" 7).reputation "a" = some
        { repRecEx with
          failureCount := repRecEx.failureCount + 1,
          score := max 0 (repRecEx.score - DEFAULTS.REPUTATION_DECREMENT_FAILURE),
          lastUpdated := 7 }) ∧
    (∃ rec, (repTrackerEmpty.initializeAgent "a" 1.2 7).reputation "a" =
        some rec ∧ rec.score = max 0 (min 1 1.2) ∧ 0 ≤ rec.score ∧
        rec.score ≤ 1) ∧
    (repTrackerEmpty.recordSuccess "a" 7).scoresInRange :=
  ⟨(reputationTracker_update_and_clamp "a" 1.2 7).1 repTrackerEx repRecEx
      (by simp [repTrackerEx]),
   (reputationTracker_update_and_clamp "a" 1.2 7).2.1 repTrackerEmpty rfl,
   (((reputationTracker_update_and_clamp "a" 1.2 7).2.2 repTrackerEmpty
      (fun _ _ h => nomatch h)).2.1)⟩

/-! ### StateStore (neural-mesh, state/StateStore.ts) -/

/-- Change record `{key, oldValue, newValue, timestamp, source}` handed to
listeners and exchanged with peers.  `oldValue`/`newValue` are `Option V`:
`none` embeds the JS `undefined` carried e.g. by the change a
`deleteState` emits. -/
structure StateChange (V : Type) where
  key : String
  oldValue : Option V
  newValue : Option V
  timestamp : ℤ
  source : String
deriving Repr, DecidableEq

/-- The store: `state` map, per-key `version` map, node id.  Every read of
the JS `version` map goes through `|| 0`, so it is embedded as a total
function with default 0, and `version.delete(key)` becomes resetting the
key to 0.  Listeners receive the change synchronously but hold no state
these claims depend on; the emitted change record is returned instead. -/
structure StateStore (V : Type) where
  state : String → Option V
  version : String → ℕ
  nodeId : String

/-- Core of `setState`: store the value (possibly the JS `undefined`
forwarded by `applyRemoteChange`) and bump the key's version. -/
def StateStore.putState {V : Type} (s : StateStore V) (key : String)
    (value : Option V) : StateStore V :=
  { s with state := Function.update s.state key value,
           version := Function.update s.version key (s.version key + 1) }

/-- Method `getState(key)`. -/
def StateStore.getState {V : Type} (s : StateStore V) (key : String) :
    Option V :=
  s.state key

/-- Method `setState(key, value)`: always succeeds locally, bumps the key's
version, and returns the change record passed to the listeners. -/
def StateStore.setState {V : Type} (s : StateStore V) (key : String)
    (value : V) (now : ℤ) : StateStore V × StateChange V :=
  (s.putState key (some value),
   { key, oldValue := s.state key, newValue := some value, timestamp := now,
     source := s.nodeId })

/-- Method `deleteState(key)`: no-op when the key holds nothing; otherwise delete
the value and the version counter and return the change record. -/
def StateStore.deleteState {V : Type} (s : StateStore V) (key : String)
    (now : ℤ) : StateStore V × Option (StateChange V) :=
  match s.state key with
  | none => (s, none)
  | some oldValue =>
    ({ s with state := Function.update s.state key none,
              version := Function.update s.version key 0 },
     some { key, oldValue := some oldValue, newValue := none,
            timestamp := now, source := s.nodeId })

/-- The 60-second freshness window: a change timestamp is fresh when it is
less than 60 000 ms older than `now` (any future timestamp is fresh). -/
def StateStore.isFresh (now ts : ℤ) : Prop := now - 60000 < ts

instance (now ts : ℤ) : Decidable (StateStore.isFresh now ts) :=
  inferInstanceAs (Decidable (now - 60000 < ts))

/-- Method `applyRemoteChange(change)`: last-write-wins by recency — accept, via
the `setState` path (which bumps the *local* version), exactly when
`change.timestamp > Date.now() - 60000`; otherwise return false and leave
the store untouched. -/
def StateStore.applyRemoteChange {V : Type} (s : StateStore V)
    (c : StateChange V) (now : ℤ) : StateStore V × Bool :=
  if now - 60000 < c.timestamp then (s.putState c.key c.newValue, true)
  else (s, false)

/-- C5: `getState` right after `setState(k, v)` returns exactly `v`;
`getState` right after `deleteState(k)` returns nothing; and `setState`
stores version `old + 1` for its key, strictly larger than the version of
the previous local write. -/
theorem stateStore_set_get_delete {V : Type} (s : StateStore V) (k : String)
    (v : V) (now now' : ℤ) :
    ((s.setState k v now).1.getState k = some v) ∧
    ((s.deleteState k now').1.getState k = none) ∧
    ((s.setState k v now).1.version k = s.version k + 1) ∧
    (s.version k < (s.setState k v now).1.version k) := by
  refine ⟨?_, ?_, ?_, ?_⟩
  · simp [StateStore.setState, StateStore.putState, StateStore.getState,
      Function.update_same]
  · unfold StateStore.deleteState StateStore.getState
    rcases h : s.state k with _ | w <;> simp [h, Function.update_same]
  · simp [StateStore.setState, StateStore.putState, Function.update_same]
  · simp [StateStore.setState, StateStore.putState, Function.update_same]

/-- C6: `applyRemoteChange` returns true — and then writes the change's
new value at its key and bumps the local version — iff the change's
timestamp lies within the 60-second freshness window of now; when it
returns false, the store (value and version included) is unchanged. -/
theorem stateStore_applyRemoteChange_window {V : Type} (s : StateStore V)
    (c : StateChange V) (now : ℤ) :
    ((s.applyRemoteChange c now).2 = true ↔
      StateStore.isFresh now c.timestamp) ∧
    ((s.applyRemoteChange c now).2 = true →
      (s.applyRemoteChange c now).1.state c.key = c.newValue ∧
      (s.applyRemoteChange c now).1.version c.key = s.version c.key + 1) ∧
    ((s.applyRemoteChange c now).2 = false →
      (s.applyRemoteChange c now).1 = s) := by
  unfold StateStore.applyRemoteChange StateStore.putState StateStore.isFresh
  split_ifs with h <;> simp [Function.update_same, h]

/-- Empty store at node `"n1"` over natural-number values. -/
def emptyStoreN : StateStore ℕ := ⟨fun _ => none, fun _ => 0, "n1"⟩

/-- A remote change with timestamp 0 (fresh at `now = 0`). -/
def freshChange : StateChange ℕ := ⟨"k", none, some 5, 0, "n2"⟩

/-- A remote change 70 s old at `now = 0` (outside the window). -/
def staleChange : StateChange ℕ := ⟨"k", none, some 5, -70000, "n2"⟩

/-- Witness for `stateStore_applyRemoteChange_window`: the fresh change is
accepted and applied; the stale one is rejected and leaves the store
unchanged. -/
theorem stateStore_applyRemoteChange_window_witness :
    ((emptyStoreN.applyRemoteChange freshChange 0).1.state "k" = some 5 ∧
      (emptyStoreN.applyRemoteChange freshChange 0).1.version "k" =
        emptyStoreN.version "k" + 1) ∧
    (emptyStoreN.applyRemoteChange staleChange 0).1 = emptyStoreN :=
  ⟨(stateStore_applyRemoteChange_window emptyStoreN freshChange 0).2.1
      (by decide),
   (stateStore_applyRemoteChange_window emptyStoreN staleChange 0).2.2
      (by decide)⟩

/-- C10 counterexample: with exactly one `setState("k", ·)` before the
delete, the pre-delete version is 1, and the post-delete `setState` stores
version 1 again — equal to, not strictly smaller than, the version held
before the delete. -/
theorem stateStore_C10_counterexample :
    (emptyStoreN.setState "k" 5 0).1.version "k" = 1 ∧
    ((((emptyStoreN.setState "k" 5 0).1.deleteState "k" 0).1.setState
        "k" 6 0).1.version "k" = 1) ∧
    ¬ ((((emptyStoreN.setState "k" 5 0).1.deleteState "k" 0).1.setState
        "k" 6 0).1.version "k" <
      (emptyStoreN.setState "k" 5 0).1.version "k") := by
  decide

/-- C10 (amended): for a key currently holding a value, `deleteState`
erases the version counter together with the value (the version map then
reads 0 for the key and `getState` nothing), so a `setState` after the
delete stores version 1; that is strictly smaller than the pre-delete
version whenever that version was at least 2, and equal to it when it was
1 — so per-key version monotonicity holds only over `setState` sequences
with no intervening `deleteState` on the key. -/
theorem stateStore_delete_resets_version {V : Type} (s : StateStore V)
    (k : String) (w v : V) (now now' : ℤ) (h : s.state k = some w) :
    ((s.deleteState k now).1.version k = 0 ∧
      (s.deleteState k now).1.state k = none) ∧
    (((s.deleteState k now).1.setState k v now').1.version k = 1) ∧
    (2 ≤ s.version k →
      ((s.deleteState k now).1.setState k v now').1.version k < s.version k) := by
  unfold StateStore.deleteState StateStore.setState StateStore.putState
  rw [h]
  refine ⟨⟨?_, ?_⟩, ?_, ?_⟩ <;>
    simp [Function.update_same]
  omega

/-- Store holding `"k" ↦ 6` at version 2 (two prior writes). -/
def storeV2 : StateStore ℕ :=
  ((emptyStoreN.setState "k" 5 0).1.setState "k" 6 0).1

/-- Witness for `stateStore_delete_resets_version`: at the version-2 store,
the delete erases value and version, and rewriting after the delete yields
version 1 < 2. -/
theorem stateStore_delete_resets_version_witness :
    (((storeV2.deleteState "k" 0).1.version "k" = 0 ∧
      (storeV2.deleteState "k" 0).1.state "k" = none) ∧
    (((storeV2.deleteState "k" 0).1.setState "k" 7 0).1.version "k" = 1) ∧
    (2 ≤ storeV2.version "k" →
      ((storeV2.deleteState "k" 0).1.setState "k" 7 0).1.version "k" <
        storeV2.version "k")) ∧
    ((storeV2.deleteState "k" 0).1.setState "k" 7 0).1.version "k" <
      storeV2.version "k" := by
  have h := stateStore_delete_resets_version storeV2 "k" 6 7 0 0 (by decide)
  exact ⟨h, h.2.2 (by decide)⟩

/-! ### RoutingTable (packages/neural-mesh/src/routing/RoutingTable.ts) -/

/-- Route entry: destination, next hop, hop distance, last-refresh time. -/
structure RouteEntry where
  destination : String
  nextHop : String
  distance : ℚ
  timestamp : ℤ
deriving Repr, DecidableEq

/-- Routing table: per-destination route map, own node id, entry TTL. -/
structure RoutingTable where
  routes : String → Option RouteEntry
  nodeId : String
  ttl : ℤ

/-- Method `addRoute(destination, nextHop, distance = 1)`: skip self-routes; keep
an existing route whose distance is less than or equal to the new one;
otherwise store the new entry stamped with the current time. -/
def RoutingTable.addRoute (t : RoutingTable) (destination nextHop : String)
    (distance : ℚ) (now : ℤ) : RoutingTable :=
  let entry : RouteEntry := ⟨destination, nextHop, distance, now⟩
  if destination = t.nodeId then t
  else
    match t.routes destination with
    | some existing =>
      if existing.distance ≤ distance then t
      else { t with routes := Function.update t.routes destination (some entry) }
    | none => { t with routes := Function.update t.routes destination (some entry) }

/-- C7: `addRoute` to one's own node id never stores anything; with an
existing route of distance ≤ the new distance (equality included) the
table is unchanged; with no existing route, or an existing route of
strictly greater distance, the new route is stored. -/
theorem routingTable_addRoute_shorter_only (t : RoutingTable)
    (d nh : String) (dist : ℚ) (now : ℤ) :
    (d = t.nodeId → t.addRoute d nh dist now = t) ∧
    (∀ e, t.routes d = some e → e.distance ≤ dist →
      t.addRoute d nh dist now = t) ∧
    (∀ e, t.routes d = some e → dist < e.distance → d ≠ t.nodeId →
      (t.addRoute d nh dist now).routes d = some ⟨d, nh, dist, now⟩) ∧
    (t.routes d = none → d ≠ t.nodeId →
      (t.addRoute d nh dist now).routes d = some ⟨d, nh, dist, now⟩) := by
  refine ⟨?_, ?_, ?_, ?_⟩
  · intro h
    simp [RoutingTable.addRoute, h]
  · intro e he hle
    unfold RoutingTable.addRoute
    split_ifs with h1
    · rfl
    · rw [he]
      simp [hle]
  · intro e he hlt hne
    unfold RoutingTable.addRoute
    rw [if_neg hne, he]
    simp [not_le.mpr hlt, Function.update_same]
  · intro he hne
    unfold RoutingTable.addRoute
    rw [if_neg hne, he]
    simp [Function.update_same]

/-- Table at node `"me"` with one stored route: to `"b"` via `"h1"` at
distance 2. -/
def routeTableEx : RoutingTable :=
  ⟨fun k => if k = "b" then some ⟨"b", "h1", 2, 0⟩ else none, "me", 300000⟩

/-- Witness for `routingTable_addRoute_shorter_only`: a self-route and an
equal-distance route leave the table unchanged; a strictly shorter route
and a route to a new destination are stored. -/
theorem routingTable_addRoute_shorter_only_witness :
    (routeTableEx.addRoute "me" "h2" 1 5 = routeTableEx) ∧
    (routeTableEx.addRoute "b" "h2" 2 5 = routeTableEx) ∧
    ((routeTableEx.addRoute "b" "h2" 1 5).routes "b" =
      some ⟨"b", "h2", 1, 5⟩) ∧
    ((routeTableEx.addRoute "c" "h2" 1 5).routes "c" =
      some ⟨"c", "h2", 1, 5⟩) :=
  ⟨(routingTable_addRoute_shorter_only routeTableEx "me" "h2" 1 5).1 rfl,
   (routingTable_addRoute_shorter_only routeTableEx "b" "h2" 2 5).2.1
     ⟨"b", "h1", 2, 0⟩ (by decide) (by norm_num),
   (routingTable_addRoute_shorter_only routeTableEx "b" "h2" 1 5).2.2.1
     ⟨"b", "h1", 2, 0⟩ (by decide) (by norm_num) (by decide),
   (routingTable_addRoute_shorter_only routeTableEx "c" "h2" 1 5).2.2.2
     (by decide) (by decide)⟩

/-! ### TaskOrchestrator.getTask / getJob
(packages/task-orchestrator/src/orchestrator/TaskOrchestrator.ts) -/

/-- Error codes of `@nexus/shared`. -/
inductive ErrorCode
  | INVALID_TASK
  | AGENT_NOT_FOUND
  | TASK_ASSIGNMENT_FAILED
  | COMMUNICATION_ERROR
  | AUTHENTICATION_ERROR
  | AUTHORIZATION_ERROR
  | RESOURCE_EXHAUSTED
  | UNKNOWN_ERROR
deriving Repr, DecidableEq

/-- Error value `NexusError` as thrown: error code plus message (the optional `details`
bag and construction timestamp are not compared by any caller). -/
structure NexusError where
  code : ErrorCode
  message : String
deriving Repr, DecidableEq

/-- Job fields relevant to lookup (the full `Job` also carries status,
owned tasks and metrics, which `getJob` only passes through). -/
structure Job where
  id : String
  userId : String
  title : String
  objective : String
deriving Repr, DecidableEq

/-- The orchestrator's `tasks` and `jobs` maps.  `getTask`/`getJob` only
read these maps; embedding them as pure functions of this state reflects
that the calls leave the orchestrator unchanged. -/
structure TaskOrchestrator where
  tasks : String → Option NexusTask
  jobs : String → Option Job

/-- Method `getTask(taskId)`: throw `NexusError(INVALID_TASK, ...)` when the id is
unknown, else return the task. -/
def TaskOrchestrator.getTask (o : TaskOrchestrator) (taskId : String) :
    Except NexusError NexusTask :=
  match o.tasks taskId with
  | none => Except.error ⟨ErrorCode.INVALID_TASK, "Task not found: " ++ taskId⟩
  | some t => Except.ok t

/-- Method `getJob(jobId)`: throw `NexusError(INVALID_TASK, ...)` when the id is
unknown, else return the job. -/
def TaskOrchestrator.getJob (o : TaskOrchestrator) (jobId : String) :
    Except NexusError Job :=
  match o.jobs jobId with
  | none => Except.error ⟨ErrorCode.INVALID_TASK, "Job not found: " ++ jobId⟩
  | some j => Except.ok j

/-- C9: fetching an unknown task or job id yields a thrown `NexusError`
carrying the distinguishable `INVALID_TASK` error code, never an absent
value; a known id is returned unchanged.  Both methods only read the
orchestrator's maps (they are pure functions of the state in this
embedding), so the orchestrator's state is not mutated by either call. -/
theorem taskOrchestrator_get_unknown_is_error (o : TaskOrchestrator)
    (id : String) :
    (o.tasks id = none → ∃ e, o.getTask id = Except.error e ∧
      e.code = ErrorCode.INVALID_TASK) ∧
    (o.jobs id = none → ∃ e, o.getJob id = Except.error e ∧
      e.code = ErrorCode.INVALID_TASK) ∧
    (∀ t, o.tasks id = some t → o.getTask id = Except.ok t) ∧
    (∀ j, o.jobs id = some j → o.getJob id = Except.ok j) := by
  refine ⟨?_, ?_, ?_, ?_⟩
  · intro h
    exact ⟨⟨ErrorCode.INVALID_TASK, "Task not found: " ++ id⟩,
      by simp [TaskOrchestrator.getTask, h], rfl⟩
  · intro h
    exact ⟨⟨ErrorCode.INVALID_TASK, "Job not found: " ++ id⟩,
      by simp [TaskOrchestrator.getJob, h], rfl⟩
  · intro t ht
    simp [TaskOrchestrator.getTask, ht]
  · intro j hj
    simp [TaskOrchestrator.getJob, hj]

/-- Orchestrator with no tasks and no jobs. -/
def emptyOrchestrator : TaskOrchestrator := ⟨fun _ => none, fun _ => none⟩

/-- Witness for `taskOrchestrator_get_unknown_is_error` at the empty
orchestrator and id `"t404"`. -/
theorem taskOrchestrator_get_unknown_is_error_witness :
    (∃ e, emptyOrchestrator.getTask "t404" = Except.error e ∧
      e.code = ErrorCode.INVALID_TASK) ∧
    (∃ e, emptyOrchestrator.getJob "t404" = Except.error e ∧
      e.code = ErrorCode.INVALID_TASK) :=
  ⟨(taskOrchestrator_get_unknown_is_error emptyOrchestrator "t404").1 rfl,
   (taskOrchestrator_get_unknown_is_error emptyOrchestrator "t404").2.1 rfl⟩

/-- Witness for `flowController_write_drain_characterization`: on a fresh
controller with capacity 100 / high 80 / low 20, writing 90 exceeds the
high-water threshold from the unpaused state, so `write` returns false. -/
theorem flowController_write_drain_characterization_witness :
    ((FlowController.mk' flowCfgEx).write 90).2 = false :=
  (flowController_write_drain_characterization
    (FlowController.mk' flowCfgEx) 90).1.mpr
    ⟨rfl, by norm_num [FlowController.mk', FlowController.highLimit, flowCfgEx]⟩

/-- Witness for `findBestAgent_two_agents_registration_order` at fresh
heartbeats for both agents. -/
theorem findBestAgent_two_agents_registration_order_witness :
    Option.map RoutingDecision.agentId
      (TaskRouter.findBestAgent 0 [agentLowRep true, agentHighRep true]
        routerTask) = some "a05" ∧
    Option.map RoutingDecision.agentId
      (TaskRouter.findBestAgent 0 [agentHighRep true, agentLowRep true]
        routerTask) = some "a09" :=
  findBestAgent_two_agents_registration_order true true
